import Mathlib

/-!
# Version-gated Soong load hooks of `frameworks_runtimes_java`

A shallow embedding of the three Soong plugin packages

* `cpcextension`  (`cpcextension.go`),
* `cpcfsq`        (`test/CpcFsqTest/cpcfsq.go`),
* `cpctest`       (`test/CpcTest/cpctest.go`),

Each package registers one module type whose factory wraps a host factory and
attaches one load hook.  A load hook reads the platform version name from the
build configuration, fills a fresh local `props` struct depending on whether
that name is `"12"`, and hands the struct to `ctx.AppendProperties`.

Go slices of strings are lists (the nil slice is `[]`), a `*bool` is an
`Option Bool` (nil is `none`), and the load-hook context, which the Go code
mutates through its methods, is passed explicitly as state.
-/

/-! ## Go builtins -/

namespace Go

/-- Go's builtin `append(s, x)` for one element: the slice extended at its end. -/
def append (s : List String) (x : String) : List String :=
  s ++ [x]

end Go

/-! ## The property structs declared locally in the three hooks -/

namespace cpcextension

/-- The struct `props` declared inside `cpcextensionHook`; `&props{}` has every
slice nil. -/
structure props where
  Srcs : List String := []
  Static_libs : List String := []
  Shared_libs : List String := []
  Cflags : List String := []
  deriving DecidableEq, Repr

end cpcextension

namespace cpcfsq

/-- The struct `props` declared inside `cpcfsqHook`; `&props{}` has a nil
`Enabled` pointer. -/
structure props where
  Enabled : Option Bool := none
  deriving DecidableEq, Repr

end cpcfsq

namespace cpctest

/-- The struct `props` declared inside `cpcTestHook`; `&props{}` has a nil
`Enabled` pointer. -/
structure props where
  Enabled : Option Bool := none
  deriving DecidableEq, Repr

end cpctest

/-! ## The host interface used by the plugins (`android/soong/android`) -/

namespace android

/-- Modelled from the spec: the `interface{}` argument of `AppendProperties`.
The only values this repository ever passes are pointers to the three local
`props` structs, one alternative per declaring package. -/
inductive PropertyStruct where
  | cpcextension (p : cpcextension.props)
  | cpcfsq (p : cpcfsq.props)
  | cpctest (p : cpctest.props)
  deriving DecidableEq, Repr

/-- Modelled from the spec: the host build configuration (`android.Config`).
The platform version is an opaque string; `settings` stands for everything
else the configuration holds, none of which the hooks read. -/
structure Config where
  platformVersionName : String
  settings : List (String × String)
  deriving DecidableEq, Repr

/-- Modelled from the spec: `Config.PlatformVersionName()`, the platform-version
string supplied by the host configuration. -/
def Config.PlatformVersionName (c : Config) : String :=
  c.platformVersionName

/-- Modelled from the spec: the load-hook context (`android.LoadHookContext`) as
explicit state.  `appended` is the sequence of property structs handed to the
host for the module being loaded (its property state so far), oldest first. -/
structure LoadHookContext where
  config : Config
  moduleName : String
  appended : List PropertyStruct
  deriving DecidableEq, Repr

/-- Modelled from the spec: `ctx.AConfig()`, the configuration of the build. -/
def LoadHookContext.AConfig (ctx : LoadHookContext) : Config :=
  ctx.config

/-- Modelled from the spec: `ctx.AppendProperties(p)`; the host appends the
struct to the module's property state. -/
def LoadHookContext.AppendProperties (ctx : LoadHookContext) (p : PropertyStruct) :
    LoadHookContext :=
  { ctx with appended := ctx.appended ++ [p] }

/-- The Go type `func(ctx android.LoadHookContext)` with the context threaded
through. -/
abbrev LoadHook := LoadHookContext → LoadHookContext

/-- Modelled from the spec: a host module (`android.Module`) as the plugin sees
it: the object allocated by a host factory, identified by `ident`, and the
load hooks attached to it so far, in attachment order. -/
structure Module where
  ident : Nat
  hooks : List LoadHook

/-- Modelled from the spec: `android.AddLoadHook(m, hook)`; the hook is added
after the hooks the module already has, the module itself stays the same
object. -/
def AddLoadHook (m : Module) (hook : LoadHook) : Module :=
  { m with hooks := m.hooks ++ [hook] }

/-- The host factories the plugins wrap (`cc.LibrarySharedFactory`,
`cc.DefaultsFactory`, `java.DefaultsFactory`).  They are host code, so the
module each one returns is a parameter. -/
structure Host where
  cc_LibrarySharedFactory : Module
  cc_DefaultsFactory : Module
  java_DefaultsFactory : Module

/-- The Go type `android.ModuleFactory`, `func() android.Module`, with the host
it calls into made explicit. -/
abbrev ModuleFactory := Host → Module

/-- Modelled from the spec: the host table of registered module types, in
registration order. -/
abbrev Registry := List (String × ModuleFactory)

/-- Modelled from the spec: `android.RegisterModuleType(name, factory)`; the
pair is added at the end of the host table. -/
def RegisterModuleType (name : String) (factory : ModuleFactory) (reg : Registry) :
    Registry :=
  reg ++ [(name, factory)]

end android

/-! ## Package `cpcextension` -/

namespace cpcextension

/-- The load hook of `cpc_library_shared` (`cpcextension.go`, lines 18-50). -/
def cpcextensionHook (ctx : android.LoadHookContext) : android.LoadHookContext := Id.run do
  let Version := ctx.AConfig.PlatformVersionName
  let mut p : props := {}
  if Version == "12" then
    p := { p with Cflags := Go.append p.Cflags "-DNO_CPC_BINDER" }
    p := { p with Cflags := Go.append p.Cflags "-Wno-unused-parameter" }
    p := { p with Shared_libs := Go.append p.Shared_libs "libandroid_runtime" }
    p := { p with Shared_libs := Go.append p.Shared_libs "libbase" }
    p := { p with Shared_libs := Go.append p.Shared_libs "liblog" }
    p := { p with Shared_libs := Go.append p.Shared_libs "libcutils" }
    p := { p with Shared_libs := Go.append p.Shared_libs "libutils" }
    p := { p with Shared_libs := Go.append p.Shared_libs "libbinder" }
    p := { p with Shared_libs := Go.append p.Shared_libs "libandroid" }
    p := { p with Shared_libs := Go.append p.Shared_libs "libandroid_runtime_lazy" }
    p := { p with Shared_libs := Go.append p.Shared_libs "libnativehelper" }
  else
    p := { p with Srcs := Go.append p.Srcs ":cpc_binder_jni" }
    p := { p with Static_libs := Go.append p.Static_libs "libcpcbinder" }
  return ctx.AppendProperties (.cpcextension p)

/-- The factory of `cpc_library_shared` (`cpcextension.go`, lines 12-16). -/
def cpcextensionDefaultsFactory : android.ModuleFactory := fun host =>
  let module := host.cc_LibrarySharedFactory
  let module := android.AddLoadHook module cpcextensionHook
  module

/-- Package initialisation (`cpcextension.go`, lines 8-10). -/
def init (reg : android.Registry) : android.Registry :=
  android.RegisterModuleType "cpc_library_shared" cpcextensionDefaultsFactory reg

end cpcextension

/-! ## Package `cpcfsq` -/

namespace cpcfsq

/-- The load hook of `cpcfsq_defaults` (`cpcfsq.go`, lines 18-38). -/
def cpcfsqHook (ctx : android.LoadHookContext) : android.LoadHookContext := Id.run do
  let Version := ctx.AConfig.PlatformVersionName
  let mut p : props := {}
  let mut enabled : Bool := true
  if Version == "12" then
    enabled := false
  p := { p with Enabled := some enabled }
  return ctx.AppendProperties (.cpcfsq p)

/-- The factory of `cpcfsq_defaults` (`cpcfsq.go`, lines 12-16). -/
def cpcfsqDefaultsFactory : android.ModuleFactory := fun host =>
  let module := host.cc_DefaultsFactory
  let module := android.AddLoadHook module cpcfsqHook
  module

/-- Package initialisation (`cpcfsq.go`, lines 8-10). -/
def init (reg : android.Registry) : android.Registry :=
  android.RegisterModuleType "cpcfsq_defaults" cpcfsqDefaultsFactory reg

end cpcfsq

/-! ## Package `cpctest` -/

namespace cpctest

/-- The load hook of `cpctest_defaults` (`cpctest.go`, lines 18-38). -/
def cpcTestHook (ctx : android.LoadHookContext) : android.LoadHookContext := Id.run do
  let Version := ctx.AConfig.PlatformVersionName
  let mut p : props := {}
  let mut enabled : Bool := true
  if Version == "12" then
    enabled := false
  p := { p with Enabled := some enabled }
  return ctx.AppendProperties (.cpctest p)

/-- The factory of `cpctest_defaults` (`cpctest.go`, lines 12-16). -/
def cpcTestDefaultsFactory : android.ModuleFactory := fun host =>
  let module := host.java_DefaultsFactory
  let module := android.AddLoadHook module cpcTestHook
  module

/-- Package initialisation (`cpctest.go`, lines 8-10). -/
def init (reg : android.Registry) : android.Registry :=
  android.RegisterModuleType "cpctest_defaults" cpcTestDefaultsFactory reg

end cpctest

/-! ## What each hook computes, in closed form -/

/-- Closed form of `cpcextensionHook`: the context with one property struct added,
chosen by comparing the version name with "12". -/
theorem cpcextensionHook_eq (ctx : android.LoadHookContext) :
    cpcextension.cpcextensionHook ctx =
      { ctx with
        appended := ctx.appended ++ [.cpcextension
          (if ctx.config.platformVersionName = "12" then
            { Srcs := [], Static_libs := [],
              Shared_libs := ["libandroid_runtime", "libbase", "liblog", "libcutils",
                "libutils", "libbinder", "libandroid", "libandroid_runtime_lazy",
                "libnativehelper"],
              Cflags := ["-DNO_CPC_BINDER", "-Wno-unused-parameter"] }
          else
            { Srcs := [":cpc_binder_jni"], Static_libs := ["libcpcbinder"],
              Shared_libs := [], Cflags := [] })] } := by
  unfold cpcextension.cpcextensionHook
  by_cases h : ctx.config.platformVersionName = "12" <;>
    simp [h, Go.append, android.LoadHookContext.AppendProperties,
      android.LoadHookContext.AConfig, android.Config.PlatformVersionName, Id.run]

/-- Closed form of `cpcfsqHook`. -/
theorem cpcfsqHook_eq (ctx : android.LoadHookContext) :
    cpcfsq.cpcfsqHook ctx =
      { ctx with
        appended := ctx.appended ++
          [.cpcfsq { Enabled := some (ctx.config.platformVersionName != "12") }] } := by
  unfold cpcfsq.cpcfsqHook
  by_cases h : ctx.config.platformVersionName = "12" <;>
    simp [h, android.LoadHookContext.AppendProperties,
      android.LoadHookContext.AConfig, android.Config.PlatformVersionName, Id.run]

/-- Closed form of `cpcTestHook`. -/
theorem cpcTestHook_eq (ctx : android.LoadHookContext) :
    cpctest.cpcTestHook ctx =
      { ctx with
        appended := ctx.appended ++
          [.cpctest { Enabled := some (ctx.config.platformVersionName != "12") }] } := by
  unfold cpctest.cpcTestHook
  by_cases h : ctx.config.platformVersionName = "12" <;>
    simp [h, android.LoadHookContext.AppendProperties,
      android.LoadHookContext.AConfig, android.Config.PlatformVersionName, Id.run]

/-! ## The shared-library hook, branch by branch -/

/-- C1: when the platform version name is "12", `cpcextensionHook` appends a
property set whose Cflags are exactly the two flags "-DNO_CPC_BINDER" and
"-Wno-unused-parameter" in that order, whose Shared_libs are exactly the nine
library names in source order, and whose Srcs and Static_libs are empty. -/
theorem cpcextensionHook_version_12 (ctx : android.LoadHookContext)
    (h : ctx.AConfig.PlatformVersionName = "12") :
    (cpcextension.cpcextensionHook ctx).appended =
      ctx.appended ++ [.cpcextension
        { Srcs := [],
          Static_libs := [],
          Shared_libs := ["libandroid_runtime", "libbase", "liblog", "libcutils",
            "libutils", "libbinder", "libandroid", "libandroid_runtime_lazy",
            "libnativehelper"],
          Cflags := ["-DNO_CPC_BINDER", "-Wno-unused-parameter"] }] := by
  have hv : ctx.config.platformVersionName = "12" := h
  rw [cpcextensionHook_eq]
  simp [hv]

theorem cpcextensionHook_version_12_witness :
    (android.LoadHookContext.mk ⟨"12", [("TARGET_PRODUCT", "vela")]⟩ "libcpc"
        []).AConfig.PlatformVersionName = "12" ∧
    (cpcextension.cpcextensionHook
        (android.LoadHookContext.mk ⟨"12", [("TARGET_PRODUCT", "vela")]⟩ "libcpc"
          [])).appended =
      [] ++ [.cpcextension
        { Srcs := [],
          Static_libs := [],
          Shared_libs := ["libandroid_runtime", "libbase", "liblog", "libcutils",
            "libutils", "libbinder", "libandroid", "libandroid_runtime_lazy",
            "libnativehelper"],
          Cflags := ["-DNO_CPC_BINDER", "-Wno-unused-parameter"] }] :=
  ⟨by decide, cpcextensionHook_version_12 _ (by decide)⟩

/-- C2: for every platform version name other than "12", `cpcextensionHook`
appends a property set with Srcs exactly [":cpc_binder_jni"], Static_libs
exactly ["libcpcbinder"], no Cflags and no Shared_libs. -/
theorem cpcextensionHook_version_other (ctx : android.LoadHookContext)
    (h : ctx.AConfig.PlatformVersionName ≠ "12") :
    (cpcextension.cpcextensionHook ctx).appended =
      ctx.appended ++ [.cpcextension
        { Srcs := [":cpc_binder_jni"],
          Static_libs := ["libcpcbinder"],
          Shared_libs := [],
          Cflags := [] }] := by
  have hv : ctx.config.platformVersionName ≠ "12" := h
  rw [cpcextensionHook_eq]
  simp [hv]

theorem cpcextensionHook_version_other_witness :
    (android.LoadHookContext.mk ⟨"12.0", []⟩ "libcpc" []).AConfig.PlatformVersionName ≠ "12" ∧
    (cpcextension.cpcextensionHook
        (android.LoadHookContext.mk ⟨"12.0", []⟩ "libcpc" [])).appended =
      [] ++ [.cpcextension
        { Srcs := [":cpc_binder_jni"],
          Static_libs := ["libcpcbinder"],
          Shared_libs := [],
          Cflags := [] }] :=
  ⟨by decide, cpcextensionHook_version_other _ (by decide)⟩

/-! ## The test-defaults hooks -/

/-- C3: for both test-defaults hooks and every context, the appended property
set has Enabled equal to (version != "12"): false when the platform version
name is "12", true for every other name. -/
theorem testHooks_enabled (ctx : android.LoadHookContext) :
    ((cpcfsq.cpcfsqHook ctx).appended =
        ctx.appended ++
          [.cpcfsq { Enabled := some (ctx.AConfig.PlatformVersionName != "12") }] ∧
      (cpctest.cpcTestHook ctx).appended =
        ctx.appended ++
          [.cpctest { Enabled := some (ctx.AConfig.PlatformVersionName != "12") }]) ∧
    ((cpcfsq.cpcfsqHook ctx).appended =
        ctx.appended ++
          [.cpcfsq
            { Enabled := some (if ctx.AConfig.PlatformVersionName = "12" then false else true) }] ∧
      (cpctest.cpcTestHook ctx).appended =
        ctx.appended ++
          [.cpctest
            { Enabled := some (if ctx.AConfig.PlatformVersionName = "12" then false else true) }]) := by
  rw [cpcfsqHook_eq, cpcTestHook_eq]
  by_cases h : ctx.config.platformVersionName = "12" <;>
    simp [h, android.LoadHookContext.AConfig, android.Config.PlatformVersionName]

/-! ## Totality, determinism and the frame of the hooks -/

/-- C4: each of the three hooks is total and two-valued: there are two
different property sets, one for "12" and one for everything else, and on
every context (every version string, the empty one included) the hook appends
the first when the version name equals "12" and the second otherwise. -/
theorem hooks_total_two_valued :
    (∃ v12 vElse : cpcextension.props, v12 ≠ vElse ∧
      ∀ ctx : android.LoadHookContext,
        (cpcextension.cpcextensionHook ctx).appended =
          ctx.appended ++
            [.cpcextension (if ctx.AConfig.PlatformVersionName = "12" then v12 else vElse)]) ∧
    (∃ v12 vElse : cpcfsq.props, v12 ≠ vElse ∧
      ∀ ctx : android.LoadHookContext,
        (cpcfsq.cpcfsqHook ctx).appended =
          ctx.appended ++
            [.cpcfsq (if ctx.AConfig.PlatformVersionName = "12" then v12 else vElse)]) ∧
    (∃ v12 vElse : cpctest.props, v12 ≠ vElse ∧
      ∀ ctx : android.LoadHookContext,
        (cpctest.cpcTestHook ctx).appended =
          ctx.appended ++
            [.cpctest (if ctx.AConfig.PlatformVersionName = "12" then v12 else vElse)]) := by
  refine ⟨⟨⟨[], [], ["libandroid_runtime", "libbase", "liblog", "libcutils", "libutils",
        "libbinder", "libandroid", "libandroid_runtime_lazy", "libnativehelper"],
        ["-DNO_CPC_BINDER", "-Wno-unused-parameter"]⟩,
      ⟨[":cpc_binder_jni"], ["libcpcbinder"], [], []⟩, by decide, fun ctx => ?_⟩,
    ⟨⟨some false⟩, ⟨some true⟩, by decide, fun ctx => ?_⟩,
    ⟨⟨some false⟩, ⟨some true⟩, by decide, fun ctx => ?_⟩⟩
  · rw [cpcextensionHook_eq]
    rfl
  · rw [cpcfsqHook_eq]
    by_cases h : ctx.config.platformVersionName = "12" <;>
      simp [h, android.LoadHookContext.AConfig, android.Config.PlatformVersionName]
  · rw [cpcTestHook_eq]
    by_cases h : ctx.config.platformVersionName = "12" <;>
      simp [h, android.LoadHookContext.AConfig, android.Config.PlatformVersionName]

/-- C5: for each of the three hooks, two contexts that report the same platform
version name get structurally identical property sets appended (element order
included), whatever else their configuration, module or earlier appended
properties hold. -/
theorem hooks_depend_only_on_version (ctx₁ ctx₂ : android.LoadHookContext)
    (h : ctx₁.AConfig.PlatformVersionName = ctx₂.AConfig.PlatformVersionName) :
    (∃ p : android.PropertyStruct,
      (cpcextension.cpcextensionHook ctx₁).appended = ctx₁.appended ++ [p] ∧
      (cpcextension.cpcextensionHook ctx₂).appended = ctx₂.appended ++ [p]) ∧
    (∃ p : android.PropertyStruct,
      (cpcfsq.cpcfsqHook ctx₁).appended = ctx₁.appended ++ [p] ∧
      (cpcfsq.cpcfsqHook ctx₂).appended = ctx₂.appended ++ [p]) ∧
    (∃ p : android.PropertyStruct,
      (cpctest.cpcTestHook ctx₁).appended = ctx₁.appended ++ [p] ∧
      (cpctest.cpcTestHook ctx₂).appended = ctx₂.appended ++ [p]) := by
  have hv : ctx₁.config.platformVersionName = ctx₂.config.platformVersionName := h
  rw [cpcextensionHook_eq, cpcextensionHook_eq, cpcfsqHook_eq, cpcfsqHook_eq,
    cpcTestHook_eq, cpcTestHook_eq, hv]
  exact ⟨⟨_, rfl, rfl⟩, ⟨_, rfl, rfl⟩, ⟨_, rfl, rfl⟩⟩

theorem hooks_depend_only_on_version_witness :
    (android.LoadHookContext.mk ⟨"12", [("TARGET_PRODUCT", "vela")]⟩ "libcpc"
        []).AConfig.PlatformVersionName =
      (android.LoadHookContext.mk ⟨"12", []⟩ "other"
        [.cpcfsq { Enabled := some true }]).AConfig.PlatformVersionName ∧
    ((∃ p : android.PropertyStruct,
      (cpcextension.cpcextensionHook
        (android.LoadHookContext.mk ⟨"12", [("TARGET_PRODUCT", "vela")]⟩ "libcpc"
          [])).appended = [] ++ [p] ∧
      (cpcextension.cpcextensionHook
        (android.LoadHookContext.mk ⟨"12", []⟩ "other"
          [.cpcfsq { Enabled := some true }])).appended =
        [.cpcfsq { Enabled := some true }] ++ [p]) ∧
    (∃ p : android.PropertyStruct,
      (cpcfsq.cpcfsqHook
        (android.LoadHookContext.mk ⟨"12", [("TARGET_PRODUCT", "vela")]⟩ "libcpc"
          [])).appended = [] ++ [p] ∧
      (cpcfsq.cpcfsqHook
        (android.LoadHookContext.mk ⟨"12", []⟩ "other"
          [.cpcfsq { Enabled := some true }])).appended =
        [.cpcfsq { Enabled := some true }] ++ [p]) ∧
    (∃ p : android.PropertyStruct,
      (cpctest.cpcTestHook
        (android.LoadHookContext.mk ⟨"12", [("TARGET_PRODUCT", "vela")]⟩ "libcpc"
          [])).appended = [] ++ [p] ∧
      (cpctest.cpcTestHook
        (android.LoadHookContext.mk ⟨"12", []⟩ "other"
          [.cpcfsq { Enabled := some true }])).appended =
        [.cpcfsq { Enabled := some true }] ++ [p])) :=
  ⟨by decide, hooks_depend_only_on_version _ _ (by decide)⟩

/-- C7: every invocation of each hook extends the sequence of appended property
sets by exactly one entry, the set selected for the version name and built
from an empty struct (fields the branch does not touch stay empty), leaves the
earlier entries, the configuration and the module untouched, and carries
nothing over: a second invocation appends the very same set again. -/
theorem hooks_append_exactly_one (ctx : android.LoadHookContext) :
    ((cpcextension.cpcextensionHook ctx).appended =
        ctx.appended ++ [.cpcextension
          (if ctx.AConfig.PlatformVersionName = "12" then
            { Srcs := [], Static_libs := [],
              Shared_libs := ["libandroid_runtime", "libbase", "liblog", "libcutils",
                "libutils", "libbinder", "libandroid", "libandroid_runtime_lazy",
                "libnativehelper"],
              Cflags := ["-DNO_CPC_BINDER", "-Wno-unused-parameter"] }
          else
            { Srcs := [":cpc_binder_jni"], Static_libs := ["libcpcbinder"],
              Shared_libs := [], Cflags := [] })] ∧
      (cpcextension.cpcextensionHook ctx).appended.length = ctx.appended.length + 1 ∧
      (cpcextension.cpcextensionHook ctx).appended.take ctx.appended.length = ctx.appended ∧
      (cpcextension.cpcextensionHook ctx).config = ctx.config ∧
      (cpcextension.cpcextensionHook ctx).moduleName = ctx.moduleName ∧
      (cpcextension.cpcextensionHook (cpcextension.cpcextensionHook ctx)).appended =
        (cpcextension.cpcextensionHook ctx).appended ++
          (cpcextension.cpcextensionHook ctx).appended.drop ctx.appended.length) ∧
    ((cpcfsq.cpcfsqHook ctx).appended =
        ctx.appended ++
          [.cpcfsq { Enabled := some (ctx.AConfig.PlatformVersionName != "12") }] ∧
      (cpcfsq.cpcfsqHook ctx).appended.length = ctx.appended.length + 1 ∧
      (cpcfsq.cpcfsqHook ctx).appended.take ctx.appended.length = ctx.appended ∧
      (cpcfsq.cpcfsqHook ctx).config = ctx.config ∧
      (cpcfsq.cpcfsqHook ctx).moduleName = ctx.moduleName ∧
      (cpcfsq.cpcfsqHook (cpcfsq.cpcfsqHook ctx)).appended =
        (cpcfsq.cpcfsqHook ctx).appended ++
          (cpcfsq.cpcfsqHook ctx).appended.drop ctx.appended.length) ∧
    ((cpctest.cpcTestHook ctx).appended =
        ctx.appended ++
          [.cpctest { Enabled := some (ctx.AConfig.PlatformVersionName != "12") }] ∧
      (cpctest.cpcTestHook ctx).appended.length = ctx.appended.length + 1 ∧
      (cpctest.cpcTestHook ctx).appended.take ctx.appended.length = ctx.appended ∧
      (cpctest.cpcTestHook ctx).config = ctx.config ∧
      (cpctest.cpcTestHook ctx).moduleName = ctx.moduleName ∧
      (cpctest.cpcTestHook (cpctest.cpcTestHook ctx)).appended =
        (cpctest.cpcTestHook ctx).appended ++
          (cpctest.cpcTestHook ctx).appended.drop ctx.appended.length) := by
  refine ⟨?_, ?_, ?_⟩
  · rw [cpcextensionHook_eq (cpcextension.cpcextensionHook ctx), cpcextensionHook_eq ctx]
    simp [android.LoadHookContext.AConfig, android.Config.PlatformVersionName]
  · rw [cpcfsqHook_eq (cpcfsq.cpcfsqHook ctx), cpcfsqHook_eq ctx]
    simp [android.LoadHookContext.AConfig, android.Config.PlatformVersionName]
  · rw [cpcTestHook_eq (cpctest.cpcTestHook ctx), cpcTestHook_eq ctx]
    simp [android.LoadHookContext.AConfig, android.Config.PlatformVersionName]

/-! ## Registration and factories -/

/-- C6: each of the three init functions registers exactly one module type, so
together they register exactly the names "cpc_library_shared",
"cpcfsq_defaults" and "cpctest_defaults", which are pairwise distinct; each
name is bound to its own factory, and each factory returns the module made by
the host factory it wraps with exactly one more load hook attached
(`cpcextensionHook`, `cpcfsqHook`, `cpcTestHook` respectively). -/
theorem registration_and_factories (reg : android.Registry) (host : android.Host) :
    (cpcextension.init reg =
        reg ++ [("cpc_library_shared", cpcextension.cpcextensionDefaultsFactory)] ∧
      cpcfsq.init reg = reg ++ [("cpcfsq_defaults", cpcfsq.cpcfsqDefaultsFactory)] ∧
      cpctest.init reg = reg ++ [("cpctest_defaults", cpctest.cpcTestDefaultsFactory)]) ∧
    cpctest.init (cpcfsq.init (cpcextension.init reg)) =
      reg ++ [("cpc_library_shared", cpcextension.cpcextensionDefaultsFactory),
        ("cpcfsq_defaults", cpcfsq.cpcfsqDefaultsFactory),
        ("cpctest_defaults", cpctest.cpcTestDefaultsFactory)] ∧
    ((cpctest.init (cpcfsq.init (cpcextension.init []))).map Prod.fst =
        ["cpc_library_shared", "cpcfsq_defaults", "cpctest_defaults"] ∧
      ((cpctest.init (cpcfsq.init (cpcextension.init []))).map Prod.fst).Nodup ∧
      (cpctest.init (cpcfsq.init (cpcextension.init []))).length = 3) ∧
    (cpcextension.cpcextensionDefaultsFactory ≠ cpcfsq.cpcfsqDefaultsFactory ∧
      cpcextension.cpcextensionDefaultsFactory ≠ cpctest.cpcTestDefaultsFactory ∧
      cpcfsq.cpcfsqDefaultsFactory ≠ cpctest.cpcTestDefaultsFactory) ∧
    (cpcextension.cpcextensionDefaultsFactory host =
        { ident := host.cc_LibrarySharedFactory.ident,
          hooks := host.cc_LibrarySharedFactory.hooks ++ [cpcextension.cpcextensionHook] } ∧
      cpcfsq.cpcfsqDefaultsFactory host =
        { ident := host.cc_DefaultsFactory.ident,
          hooks := host.cc_DefaultsFactory.hooks ++ [cpcfsq.cpcfsqHook] } ∧
      cpctest.cpcTestDefaultsFactory host =
        { ident := host.java_DefaultsFactory.ident,
          hooks := host.java_DefaultsFactory.hooks ++ [cpctest.cpcTestHook] }) := by
  refine ⟨⟨rfl, rfl, rfl⟩, ?_, ⟨?_, ?_, ?_⟩, ⟨?_, ?_, ?_⟩, ⟨rfl, rfl, rfl⟩⟩
  · simp [cpcextension.init, cpcfsq.init, cpctest.init, android.RegisterModuleType]
  · simp [cpcextension.init, cpcfsq.init, cpctest.init, android.RegisterModuleType]
  · simp [cpcextension.init, cpcfsq.init, cpctest.init, android.RegisterModuleType]
  · simp [cpcextension.init, cpcfsq.init, cpctest.init, android.RegisterModuleType]
  · intro h
    have hid := congrArg (fun f : android.ModuleFactory => (f ⟨⟨0, []⟩, ⟨1, []⟩, ⟨2, []⟩⟩).ident) h
    simp [cpcextension.cpcextensionDefaultsFactory, cpcfsq.cpcfsqDefaultsFactory,
      android.AddLoadHook] at hid
  · intro h
    have hid := congrArg (fun f : android.ModuleFactory => (f ⟨⟨0, []⟩, ⟨1, []⟩, ⟨2, []⟩⟩).ident) h
    simp [cpcextension.cpcextensionDefaultsFactory, cpctest.cpcTestDefaultsFactory,
      android.AddLoadHook] at hid
  · intro h
    have hid := congrArg (fun f : android.ModuleFactory => (f ⟨⟨0, []⟩, ⟨1, []⟩, ⟨2, []⟩⟩).ident) h
    simp [cpcfsq.cpcfsqDefaultsFactory, cpctest.cpcTestDefaultsFactory,
      android.AddLoadHook] at hid

/-! ## Relations between the hooks -/

/-- C8: on contexts that report the same version name the three hooks agree:
a test-defaults hook sets Enabled to true exactly when the shared-library hook
links the binder ("libcpcbinder" in Static_libs and ":cpc_binder_jni" in
Srcs), and to false exactly when the shared-library hook puts
"-DNO_CPC_BINDER" into Cflags; the tests are never enabled while the library
is built without the binder. -/
theorem hooks_consistent (ctxLib ctxFsq ctxTest : android.LoadHookContext)
    (hFsq : ctxFsq.AConfig.PlatformVersionName = ctxLib.AConfig.PlatformVersionName)
    (hTest : ctxTest.AConfig.PlatformVersionName = ctxLib.AConfig.PlatformVersionName) :
    ∃ (lib : cpcextension.props) (fsq : cpcfsq.props) (test : cpctest.props),
      (cpcextension.cpcextensionHook ctxLib).appended =
        ctxLib.appended ++ [.cpcextension lib] ∧
      (cpcfsq.cpcfsqHook ctxFsq).appended = ctxFsq.appended ++ [.cpcfsq fsq] ∧
      (cpctest.cpcTestHook ctxTest).appended = ctxTest.appended ++ [.cpctest test] ∧
      (fsq.Enabled = some true ↔
        ("libcpcbinder" ∈ lib.Static_libs ∧ ":cpc_binder_jni" ∈ lib.Srcs)) ∧
      (test.Enabled = some true ↔
        ("libcpcbinder" ∈ lib.Static_libs ∧ ":cpc_binder_jni" ∈ lib.Srcs)) ∧
      (fsq.Enabled = some false ↔ "-DNO_CPC_BINDER" ∈ lib.Cflags) ∧
      (test.Enabled = some false ↔ "-DNO_CPC_BINDER" ∈ lib.Cflags) ∧
      ¬ (fsq.Enabled = some true ∧
        ("-DNO_CPC_BINDER" ∈ lib.Cflags ∨ "libcpcbinder" ∉ lib.Static_libs)) ∧
      ¬ (test.Enabled = some true ∧
        ("-DNO_CPC_BINDER" ∈ lib.Cflags ∨ "libcpcbinder" ∉ lib.Static_libs)) := by
  have hF : ctxFsq.config.platformVersionName = ctxLib.config.platformVersionName := hFsq
  have hT : ctxTest.config.platformVersionName = ctxLib.config.platformVersionName := hTest
  rw [cpcextensionHook_eq, cpcfsqHook_eq, cpcTestHook_eq, hF, hT]
  refine ⟨_, _, _, rfl, rfl, rfl, ?_⟩
  by_cases h : ctxLib.config.platformVersionName = "12" <;> simp [h]

theorem hooks_consistent_witness :
    (android.LoadHookContext.mk ⟨"13", []⟩ "CpcFsqTest" []).AConfig.PlatformVersionName =
      (android.LoadHookContext.mk ⟨"13", []⟩ "libcpc" []).AConfig.PlatformVersionName ∧
    (android.LoadHookContext.mk ⟨"13", []⟩ "CpcTest" []).AConfig.PlatformVersionName =
      (android.LoadHookContext.mk ⟨"13", []⟩ "libcpc" []).AConfig.PlatformVersionName ∧
    ∃ (lib : cpcextension.props) (fsq : cpcfsq.props) (test : cpctest.props),
      (cpcextension.cpcextensionHook
          (android.LoadHookContext.mk ⟨"13", []⟩ "libcpc" [])).appended =
        [] ++ [.cpcextension lib] ∧
      (cpcfsq.cpcfsqHook (android.LoadHookContext.mk ⟨"13", []⟩ "CpcFsqTest" [])).appended =
        [] ++ [.cpcfsq fsq] ∧
      (cpctest.cpcTestHook (android.LoadHookContext.mk ⟨"13", []⟩ "CpcTest" [])).appended =
        [] ++ [.cpctest test] ∧
      (fsq.Enabled = some true ↔
        ("libcpcbinder" ∈ lib.Static_libs ∧ ":cpc_binder_jni" ∈ lib.Srcs)) ∧
      (test.Enabled = some true ↔
        ("libcpcbinder" ∈ lib.Static_libs ∧ ":cpc_binder_jni" ∈ lib.Srcs)) ∧
      (fsq.Enabled = some false ↔ "-DNO_CPC_BINDER" ∈ lib.Cflags) ∧
      (test.Enabled = some false ↔ "-DNO_CPC_BINDER" ∈ lib.Cflags) ∧
      ¬ (fsq.Enabled = some true ∧
        ("-DNO_CPC_BINDER" ∈ lib.Cflags ∨ "libcpcbinder" ∉ lib.Static_libs)) ∧
      ¬ (test.Enabled = some true ∧
        ("-DNO_CPC_BINDER" ∈ lib.Cflags ∨ "libcpcbinder" ∉ lib.Static_libs)) :=
  ⟨by decide, by decide, hooks_consistent _ _ _ (by decide) (by decide)⟩

/-- C9: for both test-defaults hooks and every context, the Enabled field of
the appended property set is set (a non-nil pointer), on the "12" branch and
on the default branch alike. -/
theorem testHooks_enabled_is_set (ctx : android.LoadHookContext) :
    (∃ p : cpcfsq.props,
      (cpcfsq.cpcfsqHook ctx).appended = ctx.appended ++ [.cpcfsq p] ∧
      p.Enabled ≠ none ∧ p.Enabled.isSome = true) ∧
    (∃ p : cpctest.props,
      (cpctest.cpcTestHook ctx).appended = ctx.appended ++ [.cpctest p] ∧
      p.Enabled ≠ none ∧ p.Enabled.isSome = true) := by
  rw [cpcfsqHook_eq, cpcTestHook_eq]
  exact ⟨⟨_, rfl, by simp, rfl⟩, ⟨_, rfl, by simp, rfl⟩⟩

/-- C10: on contexts that report the same version name, `cpcfsqHook` and
`cpcTestHook` append property sets with the same Enabled value, although the
first factory wraps the host's cc defaults and the second its java defaults. -/
theorem testHooks_agree (ctx₁ ctx₂ : android.LoadHookContext) (host : android.Host)
    (h : ctx₁.AConfig.PlatformVersionName = ctx₂.AConfig.PlatformVersionName) :
    (∃ (p : cpcfsq.props) (q : cpctest.props),
      (cpcfsq.cpcfsqHook ctx₁).appended = ctx₁.appended ++ [.cpcfsq p] ∧
      (cpctest.cpcTestHook ctx₂).appended = ctx₂.appended ++ [.cpctest q] ∧
      p.Enabled = q.Enabled) ∧
    (cpcfsq.cpcfsqDefaultsFactory host).ident = host.cc_DefaultsFactory.ident ∧
    (cpctest.cpcTestDefaultsFactory host).ident = host.java_DefaultsFactory.ident := by
  have hv : ctx₁.config.platformVersionName = ctx₂.config.platformVersionName := h
  rw [cpcfsqHook_eq, cpcTestHook_eq, hv]
  exact ⟨⟨_, _, rfl, rfl, rfl⟩, rfl, rfl⟩

theorem testHooks_agree_witness :
    (android.LoadHookContext.mk ⟨"12", []⟩ "CpcFsqTest" []).AConfig.PlatformVersionName =
      (android.LoadHookContext.mk ⟨"12", [("TARGET_PRODUCT", "vela")]⟩ "CpcTest"
        []).AConfig.PlatformVersionName ∧
    ((∃ (p : cpcfsq.props) (q : cpctest.props),
      (cpcfsq.cpcfsqHook (android.LoadHookContext.mk ⟨"12", []⟩ "CpcFsqTest" [])).appended =
        [] ++ [.cpcfsq p] ∧
      (cpctest.cpcTestHook
          (android.LoadHookContext.mk ⟨"12", [("TARGET_PRODUCT", "vela")]⟩ "CpcTest"
            [])).appended = [] ++ [.cpctest q] ∧
      p.Enabled = q.Enabled) ∧
    (cpcfsq.cpcfsqDefaultsFactory ⟨⟨0, []⟩, ⟨1, []⟩, ⟨2, []⟩⟩).ident = 1 ∧
    (cpctest.cpcTestDefaultsFactory ⟨⟨0, []⟩, ⟨1, []⟩, ⟨2, []⟩⟩).ident = 2) :=
  ⟨by decide, testHooks_agree _ _ ⟨⟨0, []⟩, ⟨1, []⟩, ⟨2, []⟩⟩ (by decide)⟩
